import Mathlib

set_option maxRecDepth 4000

namespace LST

/-- Appointment lifecycle status, from the status union type of the shared
types module: pending, confirmed, in-progress, completed. -/
inductive Status where
  | pending
  | confirmed
  | inProgress
  | completed
deriving DecidableEq, Repr

/-- Position of a status in the linear lifecycle order pending, confirmed,
in-progress, completed. -/
def Status.idx : Status → Nat
  | Status.pending => 0
  | Status.confirmed => 1
  | Status.inProgress => 2
  | Status.completed => 3

/-- Authenticated user as exposed by the auth context: uid and display name. -/
structure AppUser where
  uid : String
  name : String
deriving DecidableEq, Repr

/-- Doctor entry fetched from the users collection. -/
structure Doctor where
  uid : String
  name : String
deriving DecidableEq, Repr

/-- Medicine row of the prescription form. -/
structure Medicine where
  name : String
  dosage : String
  frequency : String
deriving DecidableEq, Repr

/-- Prescription document of the prescriptions collection. -/
structure Prescription where
  appointmentId : Nat
  medicines : List Medicine
  createdAt : Nat
deriving DecidableEq, Repr

/-- Feedback document of the feedback collection. -/
structure Feedback where
  appointmentId : Nat
  patientId : String
  doctorId : String
  rating : Rat
  comment : Option String
  createdAt : Nat
deriving DecidableEq, Repr

/-- Appointment document of the appointments collection. Instants are
modelled as minutes since an epoch and the date field as a calendar day
number. -/
structure Appointment where
  id : Nat
  patientId : String
  patientName : String
  doctorId : Option String
  doctorName : Option String
  preferredDoctorId : String
  preferredDoctorName : Option String
  date : Nat
  time : String
  healthConcern : String
  status : Status
  createdAt : Nat
  updatedAt : Nat
deriving DecidableEq, Repr

/-- Document store state: the three collections the app reads and writes. -/
structure Store where
  appointments : List Appointment
  prescriptions : List Prescription
  feedbacks : List Feedback
deriving DecidableEq, Repr

/-- First minute of calendar day d, as in setHours applied with 0,0,0,0. -/
def startOfDay (d : Nat) : Nat := d * 1440

/-- Last minute of calendar day d, as in setHours applied with 23,59,59,999. -/
def endOfDay (d : Nat) : Nat := d * 1440 + 1439

/-- Calendar day of an instant. -/
def dayOf (t : Nat) : Nat := t / 1440

/-- Two digit padding of a number below 100, as in padStart of 2 with 0. -/
def pad2 (n : Nat) : String := if n < 10 then "0" ++ toString n else toString n

/-- Translation of generateTimeSlots of BookAppointment: the outer loop runs
hour from 9 to 17 inclusive, the inner loop runs minute over 0 and 30. -/
def generateTimeSlots : List String :=
  ((List.range 9).map (fun k => 9 + k)).flatMap
    (fun hour => [pad2 hour ++ ":" ++ pad2 0, pad2 hour ++ ":" ++ pad2 30])

/-- Slot list written from the words of the specification: the fixed half
hour slots between 09:00 and 17:00 inclusive, that is 09:00, 09:30, up to
16:30, and finally 17:00. -/
def specTimeSlots : List String :=
  (((List.range 8).map (fun k => 9 + k)).flatMap
    (fun hour => [pad2 hour ++ ":" ++ pad2 0, pad2 hour ++ ":" ++ pad2 30]))
  ++ [pad2 17 ++ ":" ++ pad2 0]

/-- Booking form state; none for the date models the empty date field. -/
structure BookingForm where
  preferredDoctorId : String
  date : Option Nat
  time : String
  healthConcern : String
deriving DecidableEq, Repr

/-- Errors surfaced as toast messages by the booking handler. -/
inductive BookError where
  | missingFields
  | concernTooLong
  | dailyLimitExceeded
deriving DecidableEq, Repr

/-- Predicate of the daily cap query of handleSubmit: same patient and a
createdAt between the start and the end of the calendar day of the requested
date. -/
def capQuery (pid : String) (d : Nat) (a : Appointment) : Bool :=
  decide (a.patientId = pid ∧ startOfDay d ≤ a.createdAt ∧ a.createdAt ≤ endOfDay d)

/-- Size of the daily cap query result. -/
def countSameDay (appts : List Appointment) (pid : String) (d : Nat) : Nat :=
  (appts.filter (capQuery pid d)).length

/-- Translation of handleSubmit of BookAppointment: presence check, health
concern length check, daily cap check, then creation of a pending appointment
whose createdAt and updatedAt are the current instant. An error value means
the handler returned before addDoc, leaving the store unchanged. -/
def handleSubmit (store : Store) (doctors : List Doctor) (patient : AppUser)
    (form : BookingForm) (now : Nat) (newId : Nat) : Except BookError Store :=
  if form.preferredDoctorId = "" ∨ form.date = none ∨ form.time = "" ∨ form.healthConcern = "" then
    Except.error BookError.missingFields
  else if 200 < form.healthConcern.length then
    Except.error BookError.concernTooLong
  else
    let d := form.date.getD 0
    if 2 ≤ countSameDay store.appointments patient.uid d then
      Except.error BookError.dailyLimitExceeded
    else
      let selectedDoctor := doctors.find? (fun doc => doc.uid == form.preferredDoctorId)
      Except.ok { store with appointments := store.appointments ++
        [{ id := newId, patientId := patient.uid, patientName := patient.name,
           doctorId := none, doctorName := none,
           preferredDoctorId := form.preferredDoctorId,
           preferredDoctorName := selectedDoctor.map (fun doc => doc.name),
           date := d, time := form.time, healthConcern := form.healthConcern,
           status := Status.pending, createdAt := now, updatedAt := now }] }

/-- Error of a Firestore updateDoc call on a missing document. -/
inductive UpdateError where
  | notFound
deriving DecidableEq, Repr

/-- Lookup of an appointment document by id. -/
def getAppt (store : Store) (aid : Nat) : Option Appointment :=
  store.appointments.find? (fun a => a.id == aid)

/-- Patch applied to the appointment with the given id, as updateDoc applies
a patch to the document keyed by id. -/
def updateAppt (appts : List Appointment) (aid : Nat)
    (f : Appointment → Appointment) : List Appointment :=
  appts.map (fun a => if a.id = aid then f a else a)

/-- Patch written by the accept handler: status confirmed, doctor fields set
to the caller, updatedAt refreshed. -/
def acceptPatch (doctor : Doctor) (now : Nat) (a : Appointment) : Appointment :=
  { a with status := Status.confirmed, doctorId := some doctor.uid, doctorName := some doctor.name, updatedAt := now }

/-- Translation of handleAcceptAppointment of PendingAppointments: an
unconditional update setting status to confirmed and the doctor fields to the
caller, with no precondition on the current status of the document. -/
def handleAcceptAppointment (store : Store) (aid : Nat) (doctor : Doctor)
    (now : Nat) : Except UpdateError Store :=
  if store.appointments.any (fun a => a.id == aid) then
    let patched := updateAppt store.appointments aid (acceptPatch doctor now)
    Except.ok { store with appointments := patched }
  else
    Except.error UpdateError.notFound

/-- Translation of getNextStatus of DoctorAppointments. -/
def getNextStatus : Status → Option Status
  | Status.confirmed => some Status.inProgress
  | Status.inProgress => some Status.completed
  | _ => none

/-- Patch written by the status update handler: the given status, updatedAt
refreshed. -/
def statusPatch (newStatus : Status) (now : Nat) (a : Appointment) : Appointment :=
  { a with status := newStatus, updatedAt := now }

/-- Translation of handleStatusUpdate of DoctorAppointments: an unconditional
write of the given status, refreshing updatedAt. -/
def handleStatusUpdate (store : Store) (aid : Nat) (newStatus : Status)
    (now : Nat) : Except UpdateError Store :=
  if store.appointments.any (fun a => a.id == aid) then
    let patched := updateAppt store.appointments aid (statusPatch newStatus now)
    Except.ok { store with appointments := patched }
  else
    Except.error UpdateError.notFound

/-- Advance as wired in DoctorAppointments: the update button is rendered
only when getNextStatus of the shown status is not none, and clicking it
calls handleStatusUpdate with that next status; when getNextStatus is none no
control is offered and no write happens, so the store is returned unchanged. -/
def advanceUI (store : Store) (aid : Nat) (now : Nat) : Except UpdateError Store :=
  match getAppt store aid with
  | none => Except.error UpdateError.notFound
  | some a =>
    match getNextStatus a.status with
    | none => Except.ok store
    | some s2 => handleStatusUpdate store aid s2 now

/-- Error of the prescription handler, the missing medicine fields toast. -/
inductive PrescriptionError where
  | invalidMedicine
deriving DecidableEq, Repr

/-- Prescription document written by the prescription handler. -/
def mkPrescription (aid : Nat) (medicines : List Medicine) (now : Nat) : Prescription :=
  { appointmentId := aid, medicines := medicines, createdAt := now }

/-- Translation of handleSubmitPrescription of DoctorAppointments: the only
check is that every medicine row has nonempty name, dosage and frequency; on
success a prescription document is appended, with no status check, no owner
check and no duplicate check. -/
def handleSubmitPrescription (store : Store) (aid : Nat)
    (medicines : List Medicine) (now : Nat) : Except PrescriptionError Store :=
  if medicines.any (fun med => med.name == "" || med.dosage == "" || med.frequency == "") then
    Except.error PrescriptionError.invalidMedicine
  else
    Except.ok { store with prescriptions := store.prescriptions ++ [mkPrescription aid medicines now] }

/-- Visibility of the add prescription control in DoctorAppointments: it is
rendered only for a completed appointment with no loaded prescription. -/
def prescriptionButtonVisible (a : Appointment) (hasPrescription : Bool) : Bool :=
  a.status == Status.completed && !hasPrescription

/-- Errors surfaced as toast messages by the feedback handler. -/
inductive FeedbackError where
  | noRating
  | commentTooLong
deriving DecidableEq, Repr

/-- Feedback document written by the feedback handler. -/
def mkFeedback (aid : Nat) (pid did : String) (rating : Rat)
    (comment : Option String) (now : Nat) : Feedback :=
  { appointmentId := aid, patientId := pid, doctorId := did, rating := rating, comment := comment, createdAt := now }

/-- Translation of handleSubmitFeedback of PatientAppointments: a falsy, that
is zero, rating and a comment longer than 150 characters are rejected; on
success a feedback document is appended, with no duplicate check. An empty
comment is stored as null. -/
def handleSubmitFeedback (store : Store) (aid : Nat) (doctorId : String)
    (patient : AppUser) (rating : Rat) (comment : String) (now : Nat) :
    Except FeedbackError Store :=
  if rating = 0 then
    Except.error FeedbackError.noRating
  else if 150 < comment.length then
    Except.error FeedbackError.commentTooLong
  else
    Except.ok { store with feedbacks := store.feedbacks ++
      [mkFeedback aid patient.uid doctorId rating (if comment = "" then none else some comment) now] }

/-- Visibility of the leave feedback control in PatientAppointments: it is
rendered only for a completed appointment with a doctor assigned and no
loaded feedback. -/
def feedbackButtonVisible (a : Appointment) (hasFeedback : Bool) : Bool :=
  a.status == Status.completed && a.doctorId.isSome && !hasFeedback

/-- Number of feedback documents for one appointment and patient pair. -/
def countFeedbackFor (store : Store) (aid : Nat) (pid : String) : Nat :=
  (store.feedbacks.filter (fun f => f.appointmentId == aid && f.patientId == pid)).length

/-- Translation of the rating aggregation of fetchProfileData in Profile:
filter the feedback collection by doctorId; the average is the total of the
ratings over the count when the count is positive, and zero otherwise. -/
def doctorRating (feedbacks : List Feedback) (did : String) : Rat × Nat :=
  let fbs := feedbacks.filter (fun f => f.doctorId == did)
  if 0 < fbs.length then
    (((fbs.map (fun f => f.rating)).sum) / (fbs.length : Rat), fbs.length)
  else
    (0, fbs.length)

/-- Reassignment of every stored appointment status through f, keeping every
other field; used to state that a computation is blind to statuses. -/
def mapStatus (f : Status → Status) (store : Store) : Store :=
  { store with appointments :=
      store.appointments.map (fun a => { a with status := f a.status }) }

/-- Appointment fixture builder for concrete scenarios. -/
def mkAppt (aid : Nat) (pid : String) (st : Status) (did : Option String)
    (dn : Option String) (d : Nat) (cAt : Nat) : Appointment :=
  { id := aid, patientId := pid, patientName := "Pat One",
    doctorId := did, doctorName := dn,
    preferredDoctorId := "d1", preferredDoctorName := some "Doctor One",
    date := d, time := "09:00", healthConcern := "cough",
    status := st, createdAt := cAt, updatedAt := cAt }

/-- First doctor fixture. -/
def exDoctor1 : Doctor := { uid := "d1", name := "Doctor One" }

/-- Second doctor fixture. -/
def exDoctor2 : Doctor := { uid := "d2", name := "Doctor Two" }

/-- Patient fixture. -/
def exPatient : AppUser := { uid := "p1", name := "Pat One" }

/-- Doctors list fixture. -/
def exDoctors : List Doctor := [exDoctor1]

/-- Pending appointment fixture. -/
def apptPending : Appointment := mkAppt 1 "p1" Status.pending none none 0 5

/-- Claimed, that is confirmed, appointment fixture. -/
def apptClaimed : Appointment :=
  mkAppt 1 "p1" Status.confirmed (some "d1") (some "Doctor One") 0 5

/-- Completed appointment fixture. -/
def apptCompleted : Appointment :=
  mkAppt 1 "p1" Status.completed (some "d1") (some "Doctor One") 0 5

/-- Store holding one pending appointment. -/
def storePending : Store := { appointments := [apptPending], prescriptions := [], feedbacks := [] }

/-- Store holding one confirmed appointment claimed by the first doctor. -/
def storeClaimed : Store := { appointments := [apptClaimed], prescriptions := [], feedbacks := [] }

/-- Store holding one completed appointment of the first doctor. -/
def storeCompleted : Store := { appointments := [apptCompleted], prescriptions := [], feedbacks := [] }

/-- Empty store. -/
def emptyStore : Store := { appointments := [], prescriptions := [], feedbacks := [] }

/-- Appointment obtained from the claimed fixture by one advance step. -/
def apptClaimedAdv : Appointment :=
  { apptClaimed with status := Status.inProgress, updatedAt := 50 }

/-- Store obtained from the claimed fixture store by one advance step. -/
def storeClaimedAdv : Store :=
  { appointments := [apptClaimedAdv], prescriptions := [], feedbacks := [] }

/-- Booking form fixture requesting the next calendar day. -/
def futureForm : BookingForm :=
  { preferredDoctorId := "d1", date := some 1, time := "09:00", healthConcern := "cough" }

/-- Booking form fixture requesting the current calendar day. -/
def todayForm : BookingForm :=
  { preferredDoctorId := "d1", date := some 0, time := "09:00", healthConcern := "cough" }

/-- Booking form fixture carrying the 17:30 slot offered by the dropdown. -/
def lateForm : BookingForm :=
  { preferredDoctorId := "d1", date := some 0, time := "17:30", healthConcern := "cough" }

/-- Medicine fixture with all fields filled. -/
def exMedicine : Medicine := { name := "Paracetamol", dosage := "500mg", frequency := "3 times daily" }

/-- Feedback fixture by the patient fixture on appointment 1. -/
def exFeedback1 : Feedback :=
  { appointmentId := 1, patientId := "p1", doctorId := "d1", rating := 5,
    comment := some "Great", createdAt := 100 }

/-- Second feedback fixture for the same doctor. -/
def exFeedback2 : Feedback :=
  { appointmentId := 2, patientId := "p2", doctorId := "d1", rating := 3,
    comment := none, createdAt := 120 }

/-- Store holding one completed appointment and one feedback for it. -/
def storeWithFeedback : Store :=
  { appointments := [apptCompleted], prescriptions := [], feedbacks := [exFeedback1] }

/-- Feedback list fixture with two entries for the first doctor. -/
def wFbs : List Feedback := [exFeedback1, exFeedback2]

/-- Store holding two appointments of the patient fixture created on day 0. -/
def w10Store : Store :=
  { appointments := [mkAppt 1 "p1" Status.pending none none 0 10,
                     mkAppt 2 "p1" Status.completed (some "d1") (some "Doctor One") 0 20],
    prescriptions := [], feedbacks := [] }

/-- Comment of 151 characters. -/
def longComment : String := String.mk (List.replicate 151 'a')

/-- Bounds of the day window of the cap query coincide with equality of the
calendar day. -/
theorem window_iff_day (t d : Nat) :
    (startOfDay d ≤ t ∧ t ≤ endOfDay d) ↔ dayOf t = d := by
  unfold startOfDay endOfDay dayOf
  omega

/-- Count of the cap query rephrased through calendar day equality. -/
theorem countSameDay_day (appts : List Appointment) (pid : String) (d : Nat) :
    countSameDay appts pid d
      = (appts.filter (fun a => decide (a.patientId = pid ∧ dayOf a.createdAt = d))).length := by
  unfold countSameDay
  congr 1
  apply List.filter_congr
  intro a _
  unfold capQuery
  exact decide_eq_decide.mpr (and_congr_right (fun _ => window_iff_day a.createdAt d))

/-- Filtering after a map that is invisible to the predicate keeps the count. -/
theorem length_filter_map_inv {α : Type} (g : α → α) (p : α → Bool)
    (h : ∀ a, p (g a) = p a) (l : List α) :
    ((l.map g).filter p).length = (l.filter p).length := by
  induction l with
  | nil => rfl
  | cons a t ih =>
    simp only [List.map_cons, List.filter_cons, h a]
    cases hp : p a <;> simp [ih]

/-- Advance target of getNextStatus sits exactly one step above the source. -/
theorem getNextStatus_idx (s t : Status) (h : getNextStatus s = some t) :
    Status.idx t = Status.idx s + 1 := by
  cases s with
  | pending => simp [getNextStatus] at h
  | completed => simp [getNextStatus] at h
  | confirmed => simp [getNextStatus] at h; subst h; rfl
  | inProgress => simp [getNextStatus] at h; subst h; rfl

/-- Patch of a keyed update is observed through the keyed lookup. -/
theorem find?_updateAppt (l : List Appointment) (aid : Nat)
    (f : Appointment → Appointment) (hf : ∀ x, (f x).id = x.id) :
    (updateAppt l aid f).find? (fun a => a.id == aid)
      = (l.find? (fun a => a.id == aid)).map (fun x => if x.id = aid then f x else x) := by
  induction l with
  | nil => rfl
  | cons b t ih =>
    by_cases hb : b.id = aid
    · simp [updateAppt, List.find?_cons, hb, hf b]
    · simp only [updateAppt, List.map_cons] at ih ⊢
      rw [if_neg hb]
      rw [List.find?_cons, List.find?_cons]
      have hbeq : (b.id == aid) = false := by simp [hb]
      simp only [hbeq, cond_false]
      exact ih

/-- Membership of the keyed lookup yields the any check of the handlers. -/
theorem any_of_getAppt (store : Store) (aid : Nat) (a : Appointment)
    (h : getAppt store aid = some a) :
    store.appointments.any (fun x => x.id == aid) = true := by
  unfold getAppt at h
  have hmem : a ∈ store.appointments := List.mem_of_find?_eq_some h
  have hpred := List.find?_some h
  exact List.any_eq_true.mpr ⟨a, hmem, hpred⟩

/-- Daily limit rejection of the booking handler happens exactly when the cap
query already counts two or more documents, once the field checks pass. -/
theorem handleSubmit_daily_iff (store : Store) (doctors : List Doctor)
    (patient : AppUser) (form : BookingForm) (now newId d : Nat)
    (h1 : form.preferredDoctorId ≠ "") (h2 : form.date = some d)
    (h3 : form.time ≠ "") (h4 : form.healthConcern ≠ "")
    (h5 : form.healthConcern.length ≤ 200) :
    (handleSubmit store doctors patient form now newId
        = Except.error BookError.dailyLimitExceeded)
      ↔ 2 ≤ countSameDay store.appointments patient.uid d := by
  unfold handleSubmit
  rw [if_neg (by simp [h1, h2, h3, h4])]
  rw [if_neg (by omega)]
  simp only [h2, Option.getD_some]
  by_cases hc : 2 ≤ countSameDay store.appointments patient.uid d
  · simp [hc]
  · simp [hc]

/-- Claim C1: a claim operation on an appointment whose status is no longer
pending does not fail with an already claimed error; evaluated at a store
whose single appointment is already confirmed and owned by the first doctor,
the accept handler of the code succeeds and silently overwrites the status
and both doctor fields with the second caller. -/
theorem claim_on_claimed_overwrites :
    (getAppt storeClaimed 1).map (fun a => (a.status, a.doctorId)) = some (Status.confirmed, some "d1")
  ∧ (handleAcceptAppointment storeClaimed 1 exDoctor2 20).map
      (fun s => (getAppt s 1).map (fun a => (a.status, a.doctorId, a.doctorName)))
      = Except.ok (some (Status.confirmed, some "d2", some "Doctor Two")) :=
  ⟨rfl, rfl⟩

/-- Claim C2, counterexample: statuses do not always advance monotonically.
A claim on a completed appointment writes status confirmed, a strict
regression in the lifecycle order; moreover an advance on a pending
appointment returns the store unchanged instead of yielding an invalid
transition error. -/
theorem status_regression_by_claim :
    (getAppt storeCompleted 1).map (fun a => a.status) = some Status.completed
  ∧ (handleAcceptAppointment storeCompleted 1 exDoctor2 30).map
      (fun s => (getAppt s 1).map (fun a => a.status)) = Except.ok (some Status.confirmed)
  ∧ Status.idx Status.confirmed < Status.idx Status.completed
  ∧ advanceUI storePending 1 40 = Except.ok storePending :=
  ⟨rfl, rfl, by decide, rfl⟩

/-- Claim C2, amended: getNextStatus offers exactly the two forward steps
confirmed to in-progress and in-progress to completed; in any other source
state no advance control is offered and the wired advance leaves the store
unchanged, producing no invalid transition error; the observed status of the
advanced appointment never regresses and never skips, moving up by at most
one position; the claim operation however writes status confirmed
unconditionally, whatever the previous status was. -/
theorem advance_only_steps_claim_unconditional :
    (∀ s t, getNextStatus s = some t ↔
      ((s = Status.confirmed ∧ t = Status.inProgress) ∨
       (s = Status.inProgress ∧ t = Status.completed)))
  ∧ (∀ store aid now a, getAppt store aid = some a → getNextStatus a.status = none →
      advanceUI store aid now = Except.ok store)
  ∧ (∀ store aid now store2 a a2, advanceUI store aid now = Except.ok store2 →
      getAppt store aid = some a → getAppt store2 aid = some a2 →
      Status.idx a.status ≤ Status.idx a2.status ∧
      Status.idx a2.status ≤ Status.idx a.status + 1)
  ∧ (∀ store aid doctor now store2 a2,
      handleAcceptAppointment store aid doctor now = Except.ok store2 →
      getAppt store2 aid = some a2 → a2.status = Status.confirmed) := by
  refine ⟨?_, ?_, ?_, ?_⟩
  · intro s t
    cases s <;> cases t <;> simp [getNextStatus]
  · intro store aid now a hga hnone
    simp [advanceUI, hga, hnone]
  · intro store aid now store2 a a2 hadv hga hga2
    unfold advanceUI at hadv
    rw [hga] at hadv
    dsimp only at hadv
    cases hnext : getNextStatus a.status with
    | none =>
      rw [hnext] at hadv
      have hstores : store = store2 := by
        simpa using hadv
      subst hstores
      rw [hga] at hga2
      have : a = a2 := by simpa using hga2
      subst this
      exact ⟨Nat.le_refl _, Nat.le_succ _⟩
    | some s2 =>
      rw [hnext] at hadv
      have hany : store.appointments.any (fun x => x.id == aid) = true :=
        any_of_getAppt store aid a hga
      unfold handleStatusUpdate at hadv
      dsimp only at hadv
      rw [if_pos hany] at hadv
      have hs2 : store2 = { store with appointments := updateAppt store.appointments aid (statusPatch s2 now) } :=
        (Except.ok.inj hadv).symm
      subst hs2
      unfold getAppt at hga hga2
      simp only at hga2
      rw [find?_updateAppt store.appointments aid (statusPatch s2 now) (fun x => rfl)] at hga2
      rw [hga] at hga2
      have haid : a.id = aid := by
        have := List.find?_some hga
        simpa using this
      simp only [Option.map_some', if_pos haid] at hga2
      have ha2 : a2 = statusPatch s2 now a := by
        simpa using hga2.symm
      subst ha2
      have hidx : Status.idx s2 = Status.idx a.status + 1 := getNextStatus_idx a.status s2 hnext
      constructor
      · show Status.idx a.status ≤ Status.idx s2
        omega
      · show Status.idx s2 ≤ Status.idx a.status + 1
        omega
  · intro store aid doctor now store2 a2 hacc hga2
    unfold handleAcceptAppointment at hacc
    by_cases hany : store.appointments.any (fun x => x.id == aid) = true
    · rw [if_pos hany] at hacc
      have hs2 : store2 = { store with appointments := updateAppt store.appointments aid (acceptPatch doctor now) } :=
        (Except.ok.inj hacc).symm
      subst hs2
      unfold getAppt at hga2
      simp only at hga2
      rw [find?_updateAppt store.appointments aid (acceptPatch doctor now) (fun x => rfl)] at hga2
      rcases hfind : store.appointments.find? (fun x => x.id == aid) with _ | a0
      · rw [hfind] at hga2
        simp at hga2
      · rw [hfind] at hga2
        have haid : a0.id = aid := by
          have := List.find?_some hfind
          simpa using this
        simp only [Option.map_some', if_pos haid] at hga2
        have : a2 = acceptPatch doctor now a0 := by simpa using hga2.symm
        subst this
        rfl
    · rw [if_neg hany] at hacc
      exact Except.noConfusion hacc

/-- Claim C2, witness: the amended statement applied to the concrete store
holding one confirmed appointment, advanced once. -/
theorem advance_only_steps_witness :
    Status.idx apptClaimed.status ≤ Status.idx apptClaimedAdv.status ∧
    Status.idx apptClaimedAdv.status ≤ Status.idx apptClaimed.status + 1 :=
  advance_only_steps_claim_unconditional.2.2.1 storeClaimed 1 50 storeClaimedAdv
    apptClaimed apptClaimedAdv (by rfl) (by rfl) (by rfl)

/-- Claim C3: the claimed doctor id is not immutable once non null; after the
first doctor claims the pending appointment the id is d1, and a second claim
by another doctor overwrites it to d2. -/
theorem second_claim_changes_doctor :
    ((handleAcceptAppointment storePending 1 exDoctor1 10).map
      (fun s => (getAppt s 1).map (fun a => a.doctorId))) = Except.ok (some (some "d1"))
  ∧ ((handleAcceptAppointment storePending 1 exDoctor1 10).bind (fun s1 =>
      handleAcceptAppointment s1 1 exDoctor2 20)).map
      (fun s => (getAppt s 1).map (fun a => a.doctorId)) = Except.ok (some (some "d2")) :=
  ⟨rfl, rfl⟩

/-- Claim C4: the third sequential request of one patient on one calendar day
is not rejected when the requested date is a later day, because the cap query
window is the day of the date field: three bookings made on day zero for day
one all succeed, while the same three bookings for day zero itself end in the
daily limit error. -/
theorem third_request_not_always_rejected :
    ((handleSubmit emptyStore exDoctors exPatient futureForm 10 1).bind (fun s1 =>
      (handleSubmit s1 exDoctors exPatient futureForm 20 2).bind (fun s2 =>
        handleSubmit s2 exDoctors exPatient futureForm 30 3))).map
      (fun s => s.appointments.length) = Except.ok 3
  ∧ ((handleSubmit emptyStore exDoctors exPatient todayForm 10 1).bind (fun s1 =>
      (handleSubmit s1 exDoctors exPatient todayForm 20 2).bind (fun s2 =>
        handleSubmit s2 exDoctors exPatient todayForm 30 3)))
      = Except.error BookError.dailyLimitExceeded :=
  ⟨rfl, rfl⟩

/-- Claim C5, counterexample: the prescription handler called on a pending
appointment does not fail with a not completed error; it succeeds and creates
the prescription document. -/
theorem prescription_on_pending_succeeds :
    (getAppt storePending 1).map (fun a => a.status) = some Status.pending
  ∧ (handleSubmitPrescription storePending 1 [exMedicine] 60).map
      (fun s => s.prescriptions.length) = Except.ok 1 :=
  ⟨rfl, rfl⟩

/-- Claim C5, amended: the prescription handler validates only the medicine
rows, succeeding for every store whenever all rows are fully filled and
failing with the invalid medicine error whenever some row has an empty field;
the completed status and missing prescription preconditions are enforced only
by the visibility of the add prescription control. -/
theorem prescription_validates_only_medicines :
    (∀ store aid medicines now,
      (∀ m ∈ medicines, m.name ≠ "" ∧ m.dosage ≠ "" ∧ m.frequency ≠ "") →
      handleSubmitPrescription store aid medicines now
        = Except.ok { store with prescriptions := store.prescriptions ++ [mkPrescription aid medicines now] })
  ∧ (∀ store aid medicines now m, m ∈ medicines →
      (m.name = "" ∨ m.dosage = "" ∨ m.frequency = "") →
      handleSubmitPrescription store aid medicines now
        = Except.error PrescriptionError.invalidMedicine)
  ∧ (∀ a hp, prescriptionButtonVisible a hp = true ↔
      (a.status = Status.completed ∧ hp = false)) := by
  refine ⟨?_, ?_, ?_⟩
  · intro store aid medicines now h
    have hfalse : medicines.any (fun med => med.name == "" || med.dosage == "" || med.frequency == "") = false := by
      rw [List.any_eq_false]
      intro m hm
      obtain ⟨hn, hd, hf⟩ := h m hm
      simp [hn, hd, hf]
    simp [handleSubmitPrescription, hfalse]
  · intro store aid medicines now m hm hbad
    have htrue : medicines.any (fun med => med.name == "" || med.dosage == "" || med.frequency == "") = true := by
      refine List.any_eq_true.mpr ⟨m, hm, ?_⟩
      rcases hbad with h | h | h <;> simp [h]
    simp [handleSubmitPrescription, htrue]
  · intro a hp
    simp [prescriptionButtonVisible]

/-- Claim C5, witness: the amended statement applied to the empty store and
one fully filled medicine row. -/
theorem prescription_validates_witness :
    handleSubmitPrescription emptyStore 1 [exMedicine] 5
      = Except.ok { emptyStore with prescriptions := emptyStore.prescriptions ++ [mkPrescription 1 [exMedicine] 5] } :=
  prescription_validates_only_medicines.1 emptyStore 1 [exMedicine] 5 (by decide)

/-- Claim C6, counterexample: a second feedback call for the same appointment
and patient pair does not fail with an already exists error; starting from a
store already holding a feedback for the pair, the handler succeeds and the
store ends with two feedback documents for the pair. -/
theorem second_feedback_creates_duplicate :
    countFeedbackFor storeWithFeedback 1 "p1" = 1
  ∧ (handleSubmitFeedback storeWithFeedback 1 "d1" exPatient 4 "ok" 200).map
      (fun s => countFeedbackFor s 1 "p1") = Except.ok 2 :=
  ⟨rfl, rfl⟩

/-- Claim C6, amended: the feedback handler performs no duplicate check: for
every store, whenever the rating is nonzero and the comment fits, the call
succeeds and the number of feedback documents for the pair grows by one, even
when one already exists; at most once per pair is enforced only by the
visibility of the leave feedback control. -/
theorem feedback_appends_without_duplicate_check :
    (∀ store aid did patient rating comment now, rating ≠ 0 → comment.length ≤ 150 →
      (handleSubmitFeedback store aid did patient rating comment now).map
        (fun s => countFeedbackFor s aid patient.uid)
        = Except.ok (countFeedbackFor store aid patient.uid + 1))
  ∧ (∀ a hf, feedbackButtonVisible a hf = true ↔
      (a.status = Status.completed ∧ a.doctorId ≠ none ∧ hf = false)) := by
  constructor
  · intro store aid did patient rating comment now hr hc
    unfold handleSubmitFeedback
    rw [if_neg hr, if_neg (by omega)]
    simp [Except.map, countFeedbackFor, List.filter_append, mkFeedback]
  · intro a hf
    simp [feedbackButtonVisible, Option.isSome_iff_ne_none, and_assoc]

/-- Claim C6, witness: the amended statement applied to the empty store. -/
theorem feedback_appends_witness :
    (handleSubmitFeedback emptyStore 1 "d1" exPatient 5 "ok" 7).map
      (fun s => countFeedbackFor s 1 exPatient.uid)
      = Except.ok (countFeedbackFor emptyStore 1 exPatient.uid + 1) :=
  feedback_appends_without_duplicate_check.1 emptyStore 1 "d1" exPatient 5 "ok" 7
    (by norm_num) (by decide)

/-- Claim C7, counterexample: a rating of six is not rejected; the handler
accepts it and stores a feedback document carrying rating six. -/
theorem rating_six_accepted :
    (handleSubmitFeedback storeCompleted 1 "d1" exPatient 6 "fine" 300).map
      (fun s => s.feedbacks.map (fun f => f.rating)) = Except.ok [6] :=
  rfl

/-- Claim C7, amended: the feedback handler rejects a zero rating with the
rating error and, for a nonzero rating, rejects a comment longer than 150
characters with the comment error; in both cases no store is produced, so no
feedback document is created; ratings above five pass the check. -/
theorem feedback_rejects_zero_rating_and_long_comment :
    (∀ store aid did patient comment now,
      handleSubmitFeedback store aid did patient 0 comment now
        = Except.error FeedbackError.noRating)
  ∧ (∀ store aid did patient rating comment now, rating ≠ 0 → 150 < comment.length →
      handleSubmitFeedback store aid did patient rating comment now
        = Except.error FeedbackError.commentTooLong) := by
  constructor
  · intro store aid did patient comment now
    unfold handleSubmitFeedback
    rw [if_pos rfl]
  · intro store aid did patient rating comment now hr hc
    unfold handleSubmitFeedback
    rw [if_neg hr, if_pos hc]

/-- Claim C7, witness: the amended statement applied to a comment of 151
characters with a nonzero rating. -/
theorem feedback_long_comment_witness :
    handleSubmitFeedback emptyStore 1 "d1" exPatient 6 longComment 9
      = Except.error FeedbackError.commentTooLong :=
  feedback_rejects_zero_rating_and_long_comment.2 emptyStore 1 "d1" exPatient 6 longComment 9
    (by norm_num) (by norm_num [longComment, String.length])

/-- Claim C8: the generated slot list is not the half hour slots between
09:00 and 17:00 inclusive: it equals that list with an extra trailing 17:30
entry, and the booking handler accepts 17:30 without any slot validation. -/
theorem slot_list_overruns_five_pm :
    generateTimeSlots = specTimeSlots ++ ["17:30"]
  ∧ specTimeSlots.count "17:30" = 0
  ∧ generateTimeSlots.count "17:30" = 1
  ∧ (handleSubmit emptyStore exDoctors exPatient lateForm 10 1).map
      (fun s => s.appointments.map (fun a => a.time)) = Except.ok ["17:30"] :=
  ⟨rfl, rfl, rfl, rfl⟩

/-- Claim C9: the rating aggregation filters feedback by doctor id, returns
zero as the average when the count is zero, and otherwise an average whose
product with the count is the sum of the matching ratings, that is the
arithmetic mean. -/
theorem doctor_rating_is_mean (feedbacks : List Feedback) (did : String) :
    (doctorRating feedbacks did).2 = (feedbacks.filter (fun f => f.doctorId == did)).length
  ∧ ((doctorRating feedbacks did).2 = 0 → (doctorRating feedbacks did).1 = 0)
  ∧ ((doctorRating feedbacks did).2 ≠ 0 →
      (doctorRating feedbacks did).1 * ((doctorRating feedbacks did).2 : Rat)
        = ((feedbacks.filter (fun f => f.doctorId == did)).map (fun f => f.rating)).sum) := by
  unfold doctorRating
  by_cases h : 0 < (feedbacks.filter (fun f => f.doctorId == did)).length
  · simp only [if_pos h]
    refine ⟨trivial, ?_, ?_⟩
    · intro h0
      exact absurd h0 (by omega)
    · intro _
      exact div_mul_cancel₀ _ (Nat.cast_ne_zero.mpr (by omega))
  · simp only [if_neg h]
    refine ⟨trivial, fun _ => trivial, ?_⟩
    intro hne
    exact absurd (Nat.eq_zero_of_not_pos h) hne

/-- Claim C9, witness: the mean statement applied to a concrete feedback list
with two entries for the doctor, ratings five and three. -/
theorem doctor_rating_witness :
    (doctorRating wFbs "d1").1 * ((doctorRating wFbs "d1").2 : Rat)
      = ((wFbs.filter (fun f => f.doctorId == "d1")).map (fun f => f.rating)).sum :=
  (doctor_rating_is_mean wFbs "d1").2.2 (by decide)

/-- Claim C10: once the field checks pass, the booking handler rejects with
the daily limit error exactly when at least two stored appointments of the
patient have a createdAt on the calendar day of the date field of the
request; the outcome is independent of the instant at which the request is
made and of the statuses of the stored appointments. -/
theorem cap_window_is_request_date (store : Store) (doctors : List Doctor)
    (patient : AppUser) (form : BookingForm) (now now2 newId d : Nat)
    (h1 : form.preferredDoctorId ≠ "") (h2 : form.date = some d)
    (h3 : form.time ≠ "") (h4 : form.healthConcern ≠ "")
    (h5 : form.healthConcern.length ≤ 200) :
    ((handleSubmit store doctors patient form now newId
        = Except.error BookError.dailyLimitExceeded)
      ↔ 2 ≤ (store.appointments.filter
          (fun a => decide (a.patientId = patient.uid ∧ dayOf a.createdAt = d))).length)
  ∧ ((handleSubmit store doctors patient form now newId
        = Except.error BookError.dailyLimitExceeded)
      ↔ (handleSubmit store doctors patient form now2 newId
        = Except.error BookError.dailyLimitExceeded))
  ∧ (∀ f, (handleSubmit (mapStatus f store) doctors patient form now newId
        = Except.error BookError.dailyLimitExceeded)
      ↔ (handleSubmit store doctors patient form now newId
        = Except.error BookError.dailyLimitExceeded)) := by
  have key : ∀ n, (handleSubmit store doctors patient form n newId
      = Except.error BookError.dailyLimitExceeded)
      ↔ 2 ≤ countSameDay store.appointments patient.uid d := fun n =>
    handleSubmit_daily_iff store doctors patient form n newId d h1 h2 h3 h4 h5
  refine ⟨?_, ?_, ?_⟩
  · rw [key now, countSameDay_day]
  · rw [key now, key now2]
  · intro f
    have keymap : (handleSubmit (mapStatus f store) doctors patient form now newId
        = Except.error BookError.dailyLimitExceeded)
        ↔ 2 ≤ countSameDay (mapStatus f store).appointments patient.uid d :=
      handleSubmit_daily_iff (mapStatus f store) doctors patient form now newId d h1 h2 h3 h4 h5
    have hcount : countSameDay (mapStatus f store).appointments patient.uid d
        = countSameDay store.appointments patient.uid d := by
      unfold mapStatus countSameDay
      dsimp only
      exact length_filter_map_inv (fun a => { a with status := f a.status })
        (capQuery patient.uid d) (fun a => rfl) store.appointments
    rw [keymap, hcount, key now]

/-- Claim C10, witness: applied to a store holding two appointments of the
patient created on day zero, one pending and one completed, with a request
whose date field is day zero. -/
theorem cap_window_witness :
    (handleSubmit w10Store exDoctors exPatient todayForm 30 3
        = Except.error BookError.dailyLimitExceeded)
      ↔ 2 ≤ (w10Store.appointments.filter
          (fun a => decide (a.patientId = exPatient.uid ∧ dayOf a.createdAt = 0))).length :=
  (cap_window_is_request_date w10Store exDoctors exPatient todayForm 30 40 3 0
    (by decide) (by rfl) (by decide) (by decide) (by decide)).1

end LST
